import Mathlib

/-!
Shallow embedding of `scripts/sample_json_generator.py` (synthetic session
generator of the livegraphs-static repository).

The Python program draws from the process-wide `random` module (seedable via
`--seed`), which we model as an explicit stream of natural-number draws
(`RandGen`).  `uuid.uuid4()` reads `os.urandom`, a distinct entropy source
that `random.seed` does not touch; we model it as a second stream
(`Entropy`).  Floats are modelled as rationals, machine integers as `Nat`.
-/

namespace SampleGen

/-- `Category` enumeration (lines 65-76 of the script); `value` is the
Python enum's string value. -/
inductive Category where
  | technical_support
  | billing
  | account_management
  | product_information
  | general_inquiry
  | feature_request
  | bug_report
  | onboarding
  | other
  deriving DecidableEq, Repr, Inhabited

/-- String value of each `Category` member, exactly as in the source. -/
def Category.value : Category → String
  | .technical_support => "Technical Support"
  | .billing => "Billing"
  | .account_management => "Account Management"
  | .product_information => "Product Information"
  | .general_inquiry => "General Inquiry"
  | .feature_request => "Feature Request"
  | .bug_report => "Bug Report"
  | .onboarding => "Onboarding"
  | .other => "Unrecognized / Other"

/-- `list(Category)` in Python definition order. -/
def categoryMembers : List Category :=
  [.technical_support, .billing, .account_management, .product_information,
   .general_inquiry, .feature_request, .bug_report, .onboarding, .other]

/-- `Sentiment` enumeration (lines 79-84). -/
inductive Sentiment where
  | positive
  | neutral
  | negative
  deriving DecidableEq, Repr, Inhabited

/-- String value of each `Sentiment` member. -/
def Sentiment.value : Sentiment → String
  | .positive => "positive"
  | .neutral => "neutral"
  | .negative => "negative"

/-- `list(Sentiment)` in Python definition order. -/
def sentimentMembers : List Sentiment := [.positive, .neutral, .negative]

/-- `Role` enumeration (lines 87-91). -/
inductive Role where
  | user
  | assistant
  deriving DecidableEq, Repr, Inhabited

/-- String value of each `Role` member. -/
def Role.value : Role → String
  | .user => "User"
  | .assistant => "Assistant"

/-- `list(Role)` in Python definition order. -/
def roleMembers : List Role := [.user, .assistant]

/-- `DataConfig` (lines 94-176): vocabularies used by the generator. -/
structure DataConfig where
  questions : List String
  countries : List String
  languages : List String
  vocab : List String
  deriving Repr

/-- `DataConfig()` with the default factories of lines 98-176. -/
def defaultConfig : DataConfig where
  questions :=
    ["How do I reset my password?",
     "What are your pricing plans?",
     "How can I upgrade my account?",
     "I'm having trouble logging in",
     "Can you explain this feature?",
     "How do I export my data?",
     "Is there a mobile app available?",
     "How secure is my data?",
     "Can I integrate with other tools?",
     "What's included in the free plan?",
     "How do I cancel my subscription?",
     "Can I get a demo?",
     "What payment methods do you accept?",
     "How do I add team members?",
     "Is there an API available?"]
  countries := ["NL", "DE", "FR", "GB", "US", "ES", "IT", "BE", "PL", "SE"]
  languages := ["en", "nl", "de", "fr", "es", "it", "pl", "sv"]
  vocab :=
    ["user", "clicked", "button", "saw", "error", "page", "loaded", "slowly",
     "feedback", "suggested", "feature", "broken", "flow", "needs", "work",
     "improved", "filter", "sort", "option", "lag", "issue", "fixed",
     "release", "beta", "test", "variant", "copy", "cta", "layout",
     "confusing", "clearer", "steps", "cart", "added", "removed", "quantity"]

/-! ### The `random` module, modelled as an explicit stream of draws

`random.seed(s)` fixes the whole stream: two runs with the same seed see the
same `RandGen`.  Each primitive consumes one position of the stream. -/

/-- State of the process-wide pseudo-random source. -/
structure RandGen where
  stream : Nat → Nat
  pos : Nat

/-- Consume one raw draw. -/
def RandGen.next (g : RandGen) : Nat × RandGen :=
  (g.stream g.pos, ⟨g.stream, g.pos + 1⟩)

/-- `random.randint(a, b)`: uniform integer on the inclusive range `[a, b]`. -/
def randint (a b : Nat) (g : RandGen) : Nat × RandGen :=
  let r := g.next
  (a + r.1 % (b + 1 - a), r.2)

/-- `random.random()`: a 53-bit uniform draw in `[0, 1)`, as a rational. -/
def random_random (g : RandGen) : ℚ × RandGen :=
  let r := g.next
  (((r.1 % 2 ^ 53 : ℕ) : ℚ) / 2 ^ 53, r.2)

/-- `random.uniform(a, b) = a + (b - a) * random.random()`. -/
def uniformQ (a b : ℚ) (g : RandGen) : ℚ × RandGen :=
  let r := random_random g
  (a + (b - a) * r.1, r.2)

/-- `random.choice(seq)`: one uniformly chosen element (call sites only pass
nonempty lists; the default is never reached there). -/
def choice {α : Type} [Inhabited α] (l : List α) (g : RandGen) : α × RandGen :=
  let r := g.next
  (l.getD (r.1 % l.length) default, r.2)

/-- `random.choices(population, k=k)`: `k` independent picks with
replacement, in draw order. -/
def choicesK {α : Type} [Inhabited α] (l : List α) (k : Nat) (g : RandGen) :
    List α × RandGen :=
  match k with
  | 0 => ([], g)
  | k + 1 =>
    let r := choice l g
    let rest := choicesK l k r.2
    (r.1 :: rest.1, rest.2)

/-- `random.sample(population, k)`: `k` picks without replacement (for this
population size CPython uses its pool-based selection; removing the selected
position each round is the same multiset operation). -/
def sample {α : Type} [Inhabited α] (l : List α) (k : Nat) (g : RandGen) :
    List α × RandGen :=
  match k with
  | 0 => ([], g)
  | k + 1 =>
    if l.length = 0 then ([], g)
    else
      let r := g.next
      let j := r.1 % l.length
      let rest := sample (l.eraseIdx j) k r.2
      (l.getD j default :: rest.1, rest.2)

/-! ### `os.urandom` entropy and `uuid.uuid4()` -/

/-- Entropy source backing `os.urandom`; independent of `random.seed`. -/
structure Entropy where
  stream : Nat → Nat
  pos : Nat

/-- Read one byte of system entropy. -/
def Entropy.nextByte (e : Entropy) : Nat × Entropy :=
  (e.stream e.pos % 256, ⟨e.stream, e.pos + 1⟩)

/-- `os.urandom k`: `k` entropy bytes. -/
def urandom : Nat → Entropy → List Nat × Entropy
  | 0, e => ([], e)
  | k + 1, e =>
    let r := e.nextByte
    let rest := urandom k r.2
    (r.1 :: rest.1, rest.2)

/-- Lower-case hexadecimal digits. -/
def hexDigits : List Char := "0123456789abcdef".data

/-- One lower-case hex digit. -/
def hexDigit (n : Nat) : Char := hexDigits.getD (n % 16) '0'

/-- Two-digit lower-case hex rendering of a byte. -/
def byteHex (b : Nat) : String := ⟨[hexDigit (b / 16), hexDigit (b % 16)]⟩

/-- Hex rendering of a byte list. -/
def bytesHex : List Nat → String
  | [] => ""
  | b :: bs => byteHex b ++ bytesHex bs

/-- `str(uuid.uuid4())`: sixteen `os.urandom` bytes with the RFC 4122
version/variant bits forced, rendered `8-4-4-4-12`. -/
def uuid4 (e : Entropy) : String × Entropy :=
  let r := urandom 16 e
  let b := fun i => r.1.getD i 0
  let b6 := b 6 % 16 + 64
  let b8 := b 8 % 64 + 128
  (bytesHex [b 0, b 1, b 2, b 3] ++ "-" ++ bytesHex [b 4, b 5] ++ "-" ++
     bytesHex [b6, b 7] ++ "-" ++ bytesHex [b8, b 9] ++ "-" ++
     bytesHex [b 10, b 11, b 12, b 13, b 14, b 15], r.2)

/-! ### Decimal rendering and ISO-8601 timestamps -/

/-- One decimal digit character. -/
def digitChar (n : Nat) : Char := hexDigits.getD (n % 10) '0'

/-- Fuel-driven digit extraction (`fuel ≥ n` always suffices, as each step
divides `n` by ten). -/
def natDigitsGo : Nat → Nat → List Char
  | 0, n => [digitChar n]
  | fuel + 1, n =>
    if n < 10 then [digitChar n]
    else natDigitsGo fuel (n / 10) ++ [digitChar (n % 10)]

/-- Decimal digits of a natural number, most significant first. -/
def natDigits (n : Nat) : List Char := natDigitsGo n n

/-- Decimal rendering of a natural number. -/
def natRepr (n : Nat) : String := ⟨natDigits n⟩

/-- Decimal rendering of an integer. -/
def intRepr (i : Int) : String :=
  if i < 0 then "-" ++ natRepr i.natAbs else natRepr i.natAbs

/-- Zero-padded decimal rendering, width `w`. -/
def padNum (w n : Nat) : String :=
  ⟨List.replicate (w - (natDigits n).length) '0' ++ natDigits n⟩

/-- Proleptic-Gregorian civil date from days since 1970-01-01
(the standard era-based conversion). -/
def civilFromDays (z : Nat) : Nat × Nat × Nat :=
  let z' := z + 719468
  let era := z' / 146097
  let doe := z' % 146097
  let yoe := (doe - doe / 1460 + doe / 36524 - doe / 146096) / 365
  let y := yoe + era * 400
  let doy := doe - (365 * yoe + yoe / 4 - yoe / 100)
  let mp := (5 * doy + 2) / 153
  let d := doy - (153 * mp + 2) / 5 + 1
  let m := if mp < 10 then mp + 3 else mp - 9
  (if m ≤ 2 then y + 1 else y, m, d)

/-- `datetime.isoformat()` of a UTC instant (epoch seconds) with the
`+00:00` suffix replaced by `Z`, as in `generate_timestamp`. -/
def isoUTC (t : Nat) : String :=
  let ymd := civilFromDays (t / 86400)
  let secs := t % 86400
  padNum 4 ymd.1 ++ "-" ++ padNum 2 ymd.2.1 ++ "-" ++ padNum 2 ymd.2.2 ++ "T" ++
    padNum 2 (secs / 3600) ++ ":" ++ padNum 2 (secs % 3600 / 60) ++ ":" ++
    padNum 2 (secs % 60) ++ "Z"

/-- `round(q, nd)` (ties-to-even on floats is abstracted to `round`). -/
def roundTo (q : ℚ) (nd : Nat) : ℚ := ((round (q * 10 ^ nd) : ℤ) : ℚ) / 10 ^ nd

/-- Python `sep.join(xs)`. -/
def joinSep (sep : String) : List String → String
  | [] => ""
  | [x] => x
  | x :: y :: xs => x ++ sep ++ joinSep sep (y :: xs)

/-- Python `str.capitalize()`: first character upper-cased, the rest
lower-cased. -/
def capitalize (s : String) : String :=
  match s.data with
  | [] => ""
  | c :: cs => ⟨c.toUpper :: cs.map Char.toLower⟩

/-! ### Record model (pydantic classes, lines 182-223) -/

/-- `TranscriptEntry`. -/
structure TranscriptEntry where
  timestamp : String
  role : Role
  content : String
  deriving DecidableEq, Repr

/-- The `amount` dict inside `MessageStats`. -/
structure Amount where
  user : Nat
  total : Nat
  deriving DecidableEq, Repr

/-- `MessageStats` (nested dicts flattened to named fields). -/
structure MessageStats where
  response_time_avg : ℚ
  amount : Amount
  tokens : Nat
  cost_cent : ℚ
  cost_full : ℚ
  source_url : String
  deriving DecidableEq, Repr

/-- `User`. -/
structure User where
  ip : String
  country : String
  language : String
  deriving DecidableEq, Repr

/-- `Session` (line 208-223); `user_rating` is the only optional field. -/
structure Session where
  session_id : String
  start_time : String
  end_time : String
  transcript : List TranscriptEntry
  messages : MessageStats
  user : User
  sentiment : Sentiment
  escalated : Bool
  forwarded_hr : Bool
  category : Category
  questions : List String
  summary : String
  user_rating : Option ℚ
  deriving DecidableEq, Repr

/-! ### `SessionGenerator` methods (lines 229-391)

The base datetime is represented by its epoch seconds (`main` always builds
it as a UTC midnight at or after 2024-01-01).  Each method threads the
`RandGen` state exactly in the source's evaluation order. -/

/-- `generate_ipv4` (lines 244-257). -/
def generate_ipv4 (g : RandGen) : String × RandGen :=
  let o1 := randint 1 254 g
  let o2 := randint 0 255 o1.2
  let o3 := randint 0 255 o2.2
  let o4 := randint 1 254 o3.2
  (joinSep "." [natRepr o1.1, natRepr o2.1, natRepr o3.1, natRepr o4.1], o4.2)

/-- `generate_timestamp` (lines 259-275): base plus a uniform offset of
`0..days_span` days and `0..86400` seconds, ISO-8601 with `Z`. -/
def generate_timestamp (base days_span : Nat) (g : RandGen) : String × RandGen :=
  let d := randint 0 days_span g
  let s := randint 0 86400 d.2
  (isoUTC (base + d.1 * 86400 + s.1), s.2)

/-- `generate_sentence` (lines 277-290). -/
def generate_sentence (cfg : DataConfig) (min_words max_words : Nat)
    (g : RandGen) : String × RandGen :=
  let n := randint min_words max_words g
  let ws := choicesK cfg.vocab n.1 n.2
  (capitalize (joinSep " " ws.1) ++ ".", ws.2)

/-- Body of the `for` loop of `generate_transcript` (lines 308-314), run
`k` times: per entry a timestamp, a role, a sentence, in that order. -/
def generate_entries (cfg : DataConfig) (base days_span : Nat) (k : Nat)
    (g : RandGen) : List TranscriptEntry × RandGen :=
  match k with
  | 0 => ([], g)
  | k + 1 =>
    let ts := generate_timestamp base days_span g
    let rl := choice roleMembers ts.2
    let ct := generate_sentence cfg 8 16 rl.2
    let rest := generate_entries cfg base days_span k ct.2
    ({ timestamp := ts.1, role := rl.1, content := ct.1 } :: rest.1, rest.2)

/-- `generate_transcript` (lines 292-316): 3 to 8 entries. -/
def generate_transcript (cfg : DataConfig) (base days_span : Nat)
    (g : RandGen) : List TranscriptEntry × RandGen :=
  let n := randint 3 8 g
  generate_entries cfg base days_span n.1 n.2

/-- The fixed rating choices of line 374. -/
def ratingChoices : List ℚ := [1, 2, 3, 4, 9 / 2, 5]

/-- Lines 372-374: `user_rating = None`, set when `include_rating` holds and
a Bernoulli draw (`random.random() < 0.8`) succeeds.  The short-circuit
`and` means no draw is consumed when `include_rating` is false. -/
def genRating : Bool → RandGen → Option ℚ × RandGen
  | false, g => (none, g)
  | true, g =>
    let x := random_random g
    if x.1 < 4 / 5 then
      let r := choice ratingChoices x.2
      (some r.1, r.2)
    else (none, x.2)

/-- The swap of lines 337-338, earlier component: the session's
`start_time` is the drawn end timestamp exactly when it compared below the
drawn start timestamp. -/
def minStr (st en : String) : String := if en < st then en else st

/-- The swap of lines 337-338, later component: the session's `end_time`. -/
def maxStr (st en : String) : String := if en < st then st else en

/-- `generate_session` (lines 318-391).  Draws happen in the source's
evaluation order: uuid (entropy stream), the two timestamps, message stats,
user, questions, summary, rating, then — inside the `Session(...)` call —
transcript, sentiment, escalated, forwarded_hr, category. -/
def generate_session (cfg : DataConfig) (base days_span : Nat)
    (include_rating : Bool) (e : Entropy) (g : RandGen) :
    Session × Entropy × RandGen :=
  let sid := uuid4 e
  let st0 := generate_timestamp base days_span g
  let en0 := generate_timestamp base days_span st0.2
  let rt := uniformQ 0 120 en0.2
  let au := randint 1 10 rt.2
  let att := randint 3 20 au.2
  let tok := randint 50 5000 att.2
  let cc := uniformQ 0 500 tok.2
  let cf := uniformQ 0 5 cc.2
  let messages : MessageStats :=
    { response_time_avg := roundTo rt.1 2
      amount := { user := au.1, total := att.1 }
      tokens := tok.1
      cost_cent := roundTo cc.1 2
      cost_full := roundTo cf.1 4
      source_url := "https://redacted.local/chat/" ++ sid.1 }
  let ip := generate_ipv4 cf.2
  let co := choice cfg.countries ip.2
  let la := choice cfg.languages co.2
  let nq := randint 2 (min 5 cfg.questions.length) la.2
  let qs := sample cfg.questions nq.1 nq.2
  let s1 := generate_sentence cfg 10 10 qs.2
  let s2 := generate_sentence cfg 10 10 s1.2
  let rat := genRating include_rating s2.2
  let tr := generate_transcript cfg base days_span rat.2
  let se := choice sentimentMembers tr.2
  let es := choice [true, false] se.2
  let fh := choice [true, false] es.2
  let ca := choice categoryMembers fh.2
  ({ session_id := sid.1
     start_time := minStr st0.1 en0.1
     end_time := maxStr st0.1 en0.1
     transcript := tr.1
     messages := messages
     user := { ip := ip.1, country := co.1, language := la.1 }
     sentiment := se.1
     escalated := es.1
     forwarded_hr := fh.1
     category := ca.1
     questions := qs.1
     summary := joinSep " " [s1.1, s2.1]
     user_rating := rat.1 }, sid.2, ca.2)

/-! ### Serialization: `model_dump(exclude_none=True, mode="json")` followed
by `json.dumps` -/

mutual

/-- JSON values (arrays and objects carry their items through the mutual
list types so that every function on them is structurally recursive). -/
inductive Json where
  | null
  | jbool (b : Bool)
  | jnum (q : ℚ)
  | jstr (s : String)
  | jarr (xs : JsonList)
  | jobj (kvs : JsonObj)

/-- Items of a JSON array. -/
inductive JsonList where
  | nil
  | cons (hd : Json) (tl : JsonList)

/-- Entries of a JSON object, in insertion order. -/
inductive JsonObj where
  | nil
  | cons (key : String) (val : Json) (tl : JsonObj)

end

/-- Build a JSON array's item list from a Lean list. -/
def JsonList.ofList : List Json → JsonList
  | [] => .nil
  | j :: js => .cons j (JsonList.ofList js)

/-- The keys of a JSON object, in order. -/
def JsonObj.keys : JsonObj → List String
  | .nil => []
  | .cons k _ tl => k :: JsonObj.keys tl

/-- `json.dumps` escaping of one character (`ensure_ascii=False`): quote,
backslash and the control range are escaped, everything else is literal. -/
def escapeChar (c : Char) : String :=
  if c = '"' then "\\\""
  else if c = '\\' then "\\\\"
  else if c = '\n' then "\\n"
  else if c = '\r' then "\\r"
  else if c = '\t' then "\\t"
  else if c.toNat = 8 then "\\b"
  else if c.toNat = 12 then "\\f"
  else if c.toNat < 32 then "\\u00" ++ byteHex c.toNat
  else ⟨[c]⟩

/-- Escape a character list. -/
def escapeList : List Char → String
  | [] => ""
  | c :: cs => escapeChar c ++ escapeList cs

/-- Escape a string's characters for a JSON string literal. -/
def escape (s : String) : String := escapeList s.data

/-- Decimal rendering of the rationals this program serializes (numbers that
a finite decimal represents; Python's shortest float `repr` is abstracted to
the exact decimal). -/
def ratRepr (q : ℚ) : String :=
  if q.den = 1 then intRepr q.num
  else
    match (List.range 30).find? (fun k => decide (q.den ∣ 10 ^ k)) with
    | some k =>
      let m := (q.num * 10 ^ k / (q.den : ℤ)).natAbs
      (if q.num < 0 then "-" else "") ++
        natRepr (m / 10 ^ k) ++ "." ++ padNum k (m % 10 ^ k)
    | none => intRepr q.num ++ "/" ++ natRepr q.den

mutual

/-- `json.dumps(v, ensure_ascii=False, separators=(",", ":"))`: the compact
rendering used for non-pretty JSON and for every JSONL line. -/
def dumps : Json → String
  | .null => "null"
  | .jbool b => cond b "true" "false"
  | .jnum q => ratRepr q
  | .jstr s => "\"" ++ escape s ++ "\""
  | .jarr xs => "[" ++ dumpsArr xs ++ "]"
  | .jobj kvs => "\x7b" ++ dumpsObj kvs ++ "\x7d"

/-- Comma-joined compact renderings of array items. -/
def dumpsArr : JsonList → String
  | .nil => ""
  | .cons x .nil => dumps x
  | .cons x (.cons y tl) => dumps x ++ "," ++ dumpsArr (.cons y tl)

/-- Comma-joined compact renderings of object entries. -/
def dumpsObj : JsonObj → String
  | .nil => ""
  | .cons k v .nil => "\"" ++ escape k ++ "\":" ++ dumps v
  | .cons k v (.cons k2 v2 tl) =>
    "\"" ++ escape k ++ "\":" ++ dumps v ++ "," ++ dumpsObj (.cons k2 v2 tl)

end

/-- `n` spaces. -/
def nspaces (n : Nat) : String := ⟨List.replicate n ' '⟩

mutual

/-- `json.dumps(v, ensure_ascii=False, indent=ind)`: the pretty rendering
(item separator `,` + newline, key separator `: `). -/
def pdumps (ind lvl : Nat) : Json → String
  | .null => "null"
  | .jbool b => cond b "true" "false"
  | .jnum q => ratRepr q
  | .jstr s => "\"" ++ escape s ++ "\""
  | .jarr .nil => "[]"
  | .jarr (.cons x xs) =>
    "[\n" ++ pdumpsArr ind (lvl + 1) (.cons x xs) ++ "\n" ++ nspaces (ind * lvl) ++ "]"
  | .jobj .nil => "\x7b\x7d"
  | .jobj (.cons k v kvs) =>
    "\x7b\n" ++ pdumpsObj ind (lvl + 1) (.cons k v kvs) ++ "\n" ++
      nspaces (ind * lvl) ++ "\x7d"

/-- Indented, comma-newline-joined pretty renderings of array items. -/
def pdumpsArr (ind lvl : Nat) : JsonList → String
  | .nil => ""
  | .cons x .nil => nspaces (ind * lvl) ++ pdumps ind lvl x
  | .cons x (.cons y tl) =>
    nspaces (ind * lvl) ++ pdumps ind lvl x ++ ",\n" ++ pdumpsArr ind lvl (.cons y tl)

/-- Indented, comma-newline-joined pretty renderings of object entries. -/
def pdumpsObj (ind lvl : Nat) : JsonObj → String
  | .nil => ""
  | .cons k v .nil => nspaces (ind * lvl) ++ "\"" ++ escape k ++ "\": " ++ pdumps ind lvl v
  | .cons k v (.cons k2 v2 tl) =>
    nspaces (ind * lvl) ++ "\"" ++ escape k ++ "\": " ++ pdumps ind lvl v ++
      ",\n" ++ pdumpsObj ind lvl (.cons k2 v2 tl)

end

/-- `model_dump(mode="json")` of a transcript entry: enum becomes its string
value. -/
def entryDump (t : TranscriptEntry) : Json :=
  .jobj (.cons "timestamp" (.jstr t.timestamp)
    (.cons "role" (.jstr t.role.value)
      (.cons "content" (.jstr t.content) .nil)))

/-- `session.model_dump(exclude_none=True, mode="json")` (line 549): a dict
in field-declaration order; enums become their string values, `HttpUrl`
becomes its string, and `user_rating` is omitted (not `null`) when unset. -/
def modelDump (s : Session) : Json :=
  .jobj (.cons "session_id" (.jstr s.session_id)
    (.cons "start_time" (.jstr s.start_time)
    (.cons "end_time" (.jstr s.end_time)
    (.cons "transcript" (.jarr (JsonList.ofList (s.transcript.map entryDump)))
    (.cons "messages" (.jobj
      (.cons "response_time"
          (.jobj (.cons "avg" (.jnum s.messages.response_time_avg) .nil))
      (.cons "amount" (.jobj (.cons "user" (.jnum s.messages.amount.user)
          (.cons "total" (.jnum s.messages.amount.total) .nil)))
      (.cons "tokens" (.jnum s.messages.tokens)
      (.cons "cost" (.jobj (.cons "eur"
          (.jobj (.cons "cent" (.jnum s.messages.cost_cent)
            (.cons "full" (.jnum s.messages.cost_full) .nil))) .nil))
      (.cons "source_url" (.jstr s.messages.source_url) .nil))))))
    (.cons "user" (.jobj (.cons "ip" (.jstr s.user.ip)
        (.cons "country" (.jstr s.user.country)
          (.cons "language" (.jstr s.user.language) .nil))))
    (.cons "sentiment" (.jstr s.sentiment.value)
    (.cons "escalated" (.jbool s.escalated)
    (.cons "forwarded_hr" (.jbool s.forwarded_hr)
    (.cons "category" (.jstr s.category.value)
    (.cons "questions" (.jarr (JsonList.ofList (s.questions.map Json.jstr)))
    (.cons "summary" (.jstr s.summary)
      (match s.user_rating with
       | some r => .cons "user_rating" (Json.jnum r) .nil
       | none => .nil)))))))))))))

/-- The keys of a serialized record (top-level JSON object). -/
def recordKeys (j : Json) : List String :=
  match j with
  | .jobj kvs => kvs.keys
  | _ => []

/-! ### The `main` pipeline (lines 520-607) -/

/-- The generation loop of lines 545-553: sessions in generation order,
threading both random sources. -/
def generate_sessions (cfg : DataConfig) (base days_span : Nat)
    (include_rating : Bool) : Nat → Entropy → RandGen →
    List Session × Entropy × RandGen
  | 0, e, g => ([], e, g)
  | n + 1, e, g =>
    let r := generate_session cfg base days_span include_rating e g
    let rest := generate_sessions cfg base days_span include_rating n r.2.1 r.2.2
    (r.1 :: rest.1, rest.2.1, rest.2.2)

/-- The CLI options that shape the output content. -/
structure Args where
  num : Nat
  days : Nat
  no_rating : Bool
  jsonl : Bool
  pretty : Bool
  indent : Nat
  deriving Repr

/-- The output content prepared in lines 543-580: JSONL joins compact lines
with a final newline; otherwise a JSON array, pretty-printed only under
`--pretty`. -/
def outputContent (args : Args) (base : Nat) (e : Entropy) (g : RandGen) :
    String :=
  let sessions :=
    (generate_sessions defaultConfig base args.days (!args.no_rating)
      args.num e g).1
  let dumped := sessions.map modelDump
  if args.jsonl then joinSep "\n" (dumped.map dumps) ++ "\n"
  else if args.pretty then pdumps args.indent 0 (.jarr (JsonList.ofList dumped))
  else dumps (.jarr (JsonList.ofList dumped))

/-- `l ++ "\n"` for every line: the shape of newline-terminated content. -/
def linesJoin : List String → String
  | [] => ""
  | l :: ls => l ++ "\n" ++ linesJoin ls

/-! ### `SchemaValidator.fetch_schema` (lines 400-428)

The network and the filesystem are the environment: `http` is the outcome
of `requests.get(...).json()` (`error` covers every `RequestException`,
timeouts and bad payloads included), `fileExists` is `Path.exists`, and
`fileJson` is the outcome of `json.load` on an existing file. -/

/-- Python `str.startswith(pre)`: prefix test on the character sequence. -/
def strStartsWith (s pre : String) : Bool := pre.data.isPrefixOf s.data

/-- Environment seen by `fetch_schema`. -/
structure FetchEnv where
  http : String → Except String Json
  fileExists : String → Bool
  fileJson : String → Except String Json

/-- The distinct exceptions `fetch_schema` can raise. -/
inductive FetchErr where
  | valueErr (msg : String)
  | fileNotFound (msg : String)
  | decodeErr (msg : String)
  deriving DecidableEq, Repr

/-- `fetch_schema`: URL sources wrap any transport failure in a
`ValueError`; local sources fail with `FileNotFoundError` when missing,
otherwise load the file (a `json.load` failure propagates as is). -/
def fetch_schema (env : FetchEnv) (path_or_url : String) :
    Except FetchErr Json :=
  if strStartsWith path_or_url "http://" || strStartsWith path_or_url "https://" then
    match env.http path_or_url with
    | .ok j => .ok j
    | .error e => .error (.valueErr ("Failed to fetch schema: " ++ e))
  else if env.fileExists path_or_url then
    match env.fileJson path_or_url with
    | .ok j => .ok j
    | .error e => .error (.decodeErr e)
  else .error (.fileNotFound ("Schema file not found: " ++ path_or_url))

/-- Message carried by a `FetchErr`. -/
def FetchErr.msg : FetchErr → String
  | .valueErr m => m
  | .fileNotFound m => m
  | .decodeErr m => m

/-- The validation step of `main` (lines 591-605), abstracted over the
fetch outcome and the validator's error list: `--skip-validate` bypasses it;
a fetch exception is caught (`except Exception`) and only warned about; a
non-empty error list logs every violation and exits 1 (`sys.exit(1)` raises
`SystemExit`, which `except Exception` does not catch); an empty list logs
success.  Result: (log lines, exit status). -/
def validationStep (skip : Bool) (fetch : Except FetchErr Json)
    (validate : Json → List String) : List String × Nat :=
  if skip then ([], 0)
  else
    match fetch with
    | .error ex => (["Could not validate: " ++ ex.msg], 0)
    | .ok schema =>
      let errors := validate schema
      if errors = [] then (["✅ Schema validation passed"], 0)
      else ("Schema validation failed:" :: errors.map (fun er => "  - " ++ er), 1)

/-! ### `args.out.parent.mkdir(parents=True, exist_ok=True)` (line 557)

A directory tree is the list of existing directories, each a component
path; `mkdir(parents=True, exist_ok=True)` creates every missing ancestor
and never fails on ones that already exist. -/

/-- `p.mkdir(parents=True, exist_ok=True)`: afterwards every prefix of `p`
(including `p` itself and the already-existing root `[]`) is a directory;
pre-existing directories are kept.  The operation is total: existing
directories raise nothing. -/
def mkdirParents (dirs : List (List String)) (p : List String) :
    List (List String) :=
  dirs ++ p.inits

/-- Parent directory of an output path given as components. -/
def parentDir (out : List String) : List String := out.dropLast

/-! ### Concrete streams and argument vectors used to evaluate the model -/

/-- Entropy stream of all-zero bytes. -/
def zeroEntropy : Entropy := ⟨fun _ => 0, 0⟩

/-- Entropy stream of all-`0xff` bytes. -/
def maxEntropy : Entropy := ⟨fun _ => 255, 0⟩

/-- Seeded random stream drawing `0` forever. -/
def zeroGen : RandGen := ⟨fun _ => 0, 0⟩

/-- Seeded random stream whose sixth draw (the `amount.user` position in
`generate_session`'s consumption order) is `9`, the rest `0`: it makes
`randint(1, 10)` yield 10 while `randint(3, 20)` yields 3. -/
def userOverTotalGen : RandGen := ⟨fun i => if i = 5 then 9 else 0, 0⟩

/-- `-n 1 --no-rating`, plain compact JSON output. -/
def oneSessionArgs : Args := ⟨1, 0, true, false, false, 2⟩

/-- `-n 0 --no-rating --jsonl`. -/
def jsonlZeroArgs : Args := ⟨0, 0, true, true, false, 2⟩

/-- `-n 1 --no-rating --jsonl`. -/
def jsonlOneArgs : Args := ⟨1, 0, true, true, false, 2⟩

/-- A `FetchEnv` where every HTTP request fails with a timeout and no local
file exists. -/
def deadEnv : FetchEnv :=
  ⟨fun _ => .error "timeout", fun _ => false, fun _ => .ok .null⟩

/-! ### Helper lemmas -/

theorem randint_lower (a b : Nat) (g : RandGen) : a ≤ (randint a b g).1 := by
  simp [randint, RandGen.next]

theorem randint_upper (a b : Nat) (g : RandGen) (hab : a ≤ b) :
    (randint a b g).1 ≤ b := by
  have h : g.stream g.pos % (b + 1 - a) < b + 1 - a :=
    Nat.mod_lt _ (by omega)
  simp only [randint, RandGen.next]
  omega

theorem choice_mem {α : Type} [Inhabited α] (l : List α) (g : RandGen)
    (h : 0 < l.length) : (choice l g).1 ∈ l := by
  have hlt : g.stream g.pos % l.length < l.length := Nat.mod_lt _ h
  simp only [choice, RandGen.next]
  rw [List.getD_eq_getElem _ _ hlt]
  exact List.getElem_mem hlt

theorem sample_subperm {α : Type} [Inhabited α] [DecidableEq α] :
    ∀ (k : Nat) (l : List α) (g : RandGen), List.Subperm (sample l k g).1 l
  | 0, l, _ => by simp [sample]
  | k + 1, l, g => by
    rw [sample]
    split
    · exact List.nil_subperm
    · rename_i hne
      have hpos : 0 < l.length := Nat.pos_of_ne_zero hne
      have hlt : g.next.1 % l.length < l.length := Nat.mod_lt _ hpos
      have ih := sample_subperm k (l.eraseIdx (g.next.1 % l.length)) g.next.2
      have hgd : l.getD (g.next.1 % l.length) default = l[g.next.1 % l.length] :=
        List.getD_eq_getElem _ _ hlt
      have hperm :
          List.Perm (l[g.next.1 % l.length] :: l.eraseIdx (g.next.1 % l.length)) l := by
        refine List.Perm.trans (List.Perm.cons _ (List.erase_getElem hlt).symm) ?_
        exact (List.perm_cons_erase (List.getElem_mem hlt)).symm
      simp only [hgd]
      exact List.Subperm.trans ((List.subperm_cons _).2 ih) hperm.subperm

theorem sample_length {α : Type} [Inhabited α] :
    ∀ (k : Nat) (l : List α) (g : RandGen), k ≤ l.length →
      (sample l k g).1.length = k
  | 0, _, _, _ => by simp [sample]
  | k + 1, l, g, hk => by
    rw [sample]
    split
    · omega
    · rename_i hne
      have hpos : 0 < l.length := Nat.pos_of_ne_zero hne
      have hlt : g.next.1 % l.length < l.length := Nat.mod_lt _ hpos
      have hlen : (l.eraseIdx (g.next.1 % l.length)).length = l.length - 1 :=
        List.length_eraseIdx_of_lt hlt
      have ih := sample_length k (l.eraseIdx (g.next.1 % l.length)) g.next.2
        (by omega)
      simpa using ih

theorem sample_nodup {α : Type} [Inhabited α] [DecidableEq α] (l : List α) (k : Nat)
    (g : RandGen) (hl : l.Nodup) : (sample l k g).1.Nodup := by
  obtain ⟨l', hperm, hsub⟩ := sample_subperm k l g
  exact hperm.nodup_iff.mp (hsub.nodup hl)

theorem generate_sessions_length (cfg : DataConfig) (base days_span : Nat)
    (incl : Bool) : ∀ (n : Nat) (e : Entropy) (g : RandGen),
      (generate_sessions cfg base days_span incl n e g).1.length = n
  | 0, _, _ => rfl
  | n + 1, e, g => by
    simp [generate_sessions, generate_sessions_length cfg base days_span incl n]

/-! ### Newline-freeness of the compact serialization -/

/-- A string with no raw newline character. -/
abbrev nlFree (s : String) : Prop := '\n' ∉ s.data

theorem nlFree_append {a b : String} : nlFree (a ++ b) ↔ nlFree a ∧ nlFree b := by
  simp [nlFree, String.data_append, not_or]

theorem hexDigits_nl : ∀ c ∈ hexDigits, c ≠ '\n' := by decide

theorem hexDigit_nl (n : Nat) : hexDigit n ≠ '\n' := by
  have hlt : n % 16 < hexDigits.length := Nat.mod_lt _ (by decide)
  rw [hexDigit, List.getD_eq_getElem _ _ hlt]
  exact hexDigits_nl _ (List.getElem_mem hlt)

theorem digitChar_nl (n : Nat) : digitChar n ≠ '\n' := by
  have hlt : n % 10 < hexDigits.length := by
    have := Nat.mod_lt n (y := 10) (by omega)
    simp only [hexDigits, List.length]
    omega
  rw [digitChar, List.getD_eq_getElem _ _ hlt]
  exact hexDigits_nl _ (List.getElem_mem hlt)

theorem byteHex_nl (b : Nat) : nlFree (byteHex b) := by
  show '\n' ∉ [hexDigit (b / 16), hexDigit (b % 16)]
  simp only [List.mem_cons, List.not_mem_nil, or_false]
  push_neg
  exact ⟨Ne.symm (hexDigit_nl _), Ne.symm (hexDigit_nl _)⟩

theorem natDigitsGo_nl : ∀ fuel n : Nat, '\n' ∉ natDigitsGo fuel n
  | 0, n => by
    simp only [natDigitsGo, List.mem_singleton]
    exact fun h => digitChar_nl n h.symm
  | fuel + 1, n => by
    rw [natDigitsGo]
    split
    · simp only [List.mem_singleton]
      exact fun h => digitChar_nl n h.symm
    · have ih := natDigitsGo_nl fuel (n / 10)
      simp only [List.mem_append, List.mem_singleton]
      rintro (h | h)
      · exact ih h
      · exact digitChar_nl _ h.symm

theorem natDigits_nl (n : Nat) : '\n' ∉ natDigits n := natDigitsGo_nl n n

theorem natRepr_nl (n : Nat) : nlFree (natRepr n) := natDigits_nl n

theorem intRepr_nl (i : Int) : nlFree (intRepr i) := by
  rw [intRepr]
  split
  · rw [nlFree_append]
    exact ⟨by decide, natRepr_nl _⟩
  · exact natRepr_nl _

theorem padNum_nl (w n : Nat) : nlFree (padNum w n) := by
  show '\n' ∉ List.replicate (w - (natDigits n).length) '0' ++ natDigits n
  simp only [List.mem_append]
  rintro (h | h)
  · exact (by decide : ('\n' : Char) ≠ '0') (List.eq_of_mem_replicate h)
  · exact natDigits_nl n h

theorem ratRepr_nl (q : ℚ) : nlFree (ratRepr q) := by
  rw [ratRepr]
  split
  · exact intRepr_nl _
  · split
    · rw [nlFree_append, nlFree_append, nlFree_append]
      refine ⟨⟨⟨?_, natRepr_nl _⟩, by decide⟩, padNum_nl _ _⟩
      split
      · decide
      · decide
    · rw [nlFree_append, nlFree_append]
      exact ⟨⟨intRepr_nl _, by decide⟩, natRepr_nl _⟩

theorem escapeChar_nl (c : Char) : nlFree (escapeChar c) := by
  rw [escapeChar]
  split
  · decide
  · split
    · decide
    · split
      · decide
      · split
        · decide
        · split
          · decide
          · split
            · decide
            · split
              · decide
              · split
                · rw [nlFree_append]
                  exact ⟨by decide, byteHex_nl _⟩
                · rename_i h1 h2 h3 h4 h5 h6 h7 h8
                  show '\n' ∉ [c]
                  simp only [List.mem_singleton]
                  exact fun h => h3 h.symm

theorem escapeList_nl : ∀ cs : List Char, nlFree (escapeList cs)
  | [] => by decide
  | c :: cs => by
    rw [escapeList, nlFree_append]
    exact ⟨escapeChar_nl c, escapeList_nl cs⟩

theorem escape_nl (s : String) : nlFree (escape s) := escapeList_nl s.data

mutual

theorem dumps_nl : (j : Json) → nlFree (dumps j)
  | .null => by decide
  | .jbool b => by cases b <;> decide
  | .jnum q => ratRepr_nl q
  | .jstr s => by
    rw [show dumps (.jstr s) = "\"" ++ escape s ++ "\"" from rfl,
      nlFree_append, nlFree_append]
    exact ⟨⟨by decide, escape_nl s⟩, by decide⟩
  | .jarr xs => by
    rw [show dumps (.jarr xs) = "[" ++ dumpsArr xs ++ "]" from rfl,
      nlFree_append, nlFree_append]
    exact ⟨⟨by decide, dumpsArr_nl xs⟩, by decide⟩
  | .jobj kvs => by
    rw [show dumps (.jobj kvs) = "\x7b" ++ dumpsObj kvs ++ "\x7d" from rfl,
      nlFree_append, nlFree_append]
    exact ⟨⟨by decide, dumpsObj_nl kvs⟩, by decide⟩

theorem dumpsArr_nl : (xs : JsonList) → nlFree (dumpsArr xs)
  | .nil => by decide
  | .cons x .nil => by
    rw [show dumpsArr (.cons x .nil) = dumps x from rfl]
    exact dumps_nl x
  | .cons x (.cons y tl) => by
    rw [show dumpsArr (.cons x (.cons y tl)) =
        dumps x ++ "," ++ dumpsArr (.cons y tl) from rfl,
      nlFree_append, nlFree_append]
    exact ⟨⟨dumps_nl x, by decide⟩, dumpsArr_nl (.cons y tl)⟩

theorem dumpsObj_nl : (kvs : JsonObj) → nlFree (dumpsObj kvs)
  | .nil => by decide
  | .cons k v .nil => by
    rw [show dumpsObj (.cons k v .nil) = "\"" ++ escape k ++ "\":" ++ dumps v from rfl,
      nlFree_append, nlFree_append, nlFree_append]
    exact ⟨⟨⟨by decide, escape_nl k⟩, by decide⟩, dumps_nl v⟩
  | .cons k v (.cons k2 v2 tl) => by
    rw [show dumpsObj (.cons k v (.cons k2 v2 tl)) =
        "\"" ++ escape k ++ "\":" ++ dumps v ++ "," ++ dumpsObj (.cons k2 v2 tl) from rfl,
      nlFree_append, nlFree_append, nlFree_append, nlFree_append, nlFree_append]
    exact ⟨⟨⟨⟨⟨by decide, escape_nl k⟩, by decide⟩, dumps_nl v⟩, by decide⟩,
      dumpsObj_nl (.cons k2 v2 tl)⟩

end

theorem minStr_le_maxStr (a b : String) : minStr a b ≤ maxStr a b := by
  rw [minStr, maxStr]
  split
  · exact le_of_lt (by assumption)
  · exact le_of_not_lt (by assumption)

theorem generate_entries_roles (cfg : DataConfig) (base days_span : Nat) :
    ∀ (k : Nat) (g : RandGen) (t : TranscriptEntry),
      t ∈ (generate_entries cfg base days_span k g).1 → t.role ∈ roleMembers
  | 0, g, t, h => by simp [generate_entries] at h
  | k + 1, g, t, h => by
    simp only [generate_entries] at h
    rcases List.mem_cons.mp h with h1 | h2
    · rw [h1]
      exact choice_mem _ _ (by decide)
    · exact generate_entries_roles cfg base days_span k _ t h2

theorem genRating_mem : ∀ (incl : Bool) (g : RandGen) (r : ℚ),
    (genRating incl g).1 = some r → r ∈ ratingChoices
  | false, g, r, h => by simp [genRating] at h
  | true, g, r, h => by
    simp only [genRating] at h
    split at h
    · exact Option.some.inj h ▸ choice_mem _ _ (by decide)
    · simp at h

theorem genRating_some_iff (g : RandGen) :
    (genRating true g).1 ≠ none ↔ (random_random g).1 < 4 / 5 := by
  simp only [genRating]
  split
  · rename_i hlt
    simpa using hlt
  · rename_i hlt
    simpa using hlt

theorem recordKeys_user_rating_none (s : Session) (h : s.user_rating = none) :
    "user_rating" ∉ recordKeys (modelDump s) := by
  simp only [modelDump, recordKeys, h, JsonObj.keys]
  decide

theorem recordKeys_user_rating_some (s : Session) (r : ℚ)
    (h : s.user_rating = some r) : "user_rating" ∈ recordKeys (modelDump s) := by
  simp only [modelDump, recordKeys, h, JsonObj.keys]
  simp

theorem session_rating_off (cfg : DataConfig) (base days_span : Nat)
    (e : Entropy) (g : RandGen) :
    (generate_session cfg base days_span false e g).1.user_rating = none := rfl

theorem generate_sessions_rating_off (cfg : DataConfig) (base days_span : Nat) :
    ∀ (n : Nat) (e : Entropy) (g : RandGen) (s : Session),
      s ∈ (generate_sessions cfg base days_span false n e g).1 →
      s.user_rating = none
  | 0, e, g, s, h => by simp [generate_sessions] at h
  | n + 1, e, g, s, h => by
    simp only [generate_sessions] at h
    rcases List.mem_cons.mp h with h1 | h2
    · rw [h1]
      exact session_rating_off cfg base days_span e g
    · exact generate_sessions_rating_off cfg base days_span n _ _ s h2

/-- Joining compact lines with `"\n"` and appending the final newline is the
newline-terminated-lines shape. -/
theorem joinSep_nl_linesJoin :
    ∀ (x : String) (xs : List String),
      joinSep "\n" (x :: xs) ++ "\n" = linesJoin (x :: xs)
  | x, [] => by
    rw [show joinSep "\n" [x] = x from rfl,
      show linesJoin [x] = x ++ "\n" ++ linesJoin [] from rfl,
      show linesJoin [] = "" from rfl, String.append_empty]
  | x, y :: xs => by
    rw [show joinSep "\n" (x :: y :: xs) = x ++ "\n" ++ joinSep "\n" (y :: xs) from rfl,
      show linesJoin (x :: y :: xs) = x ++ "\n" ++ linesJoin (y :: xs) from rfl,
      ← joinSep_nl_linesJoin y xs, String.append_assoc, String.append_assoc]

/-! ### The claims -/

/-- C2: every session's `category` comes from the nine-member `Category`
vocabulary, its `sentiment` from the three-member `Sentiment` vocabulary,
and every transcript entry's `role` from the two-member
`User`/`Assistant` vocabulary — both as enum members and as the serialized
string values the external schema checks. -/
theorem c2_enumerated_fields_closed (cfg : DataConfig) (base days_span : Nat)
    (incl : Bool) (e : Entropy) (g : RandGen) :
    (generate_session cfg base days_span incl e g).1.category ∈ categoryMembers ∧
    (generate_session cfg base days_span incl e g).1.category.value ∈
      ["Technical Support", "Billing", "Account Management",
       "Product Information", "General Inquiry", "Feature Request",
       "Bug Report", "Onboarding", "Unrecognized / Other"] ∧
    (generate_session cfg base days_span incl e g).1.sentiment ∈ sentimentMembers ∧
    (generate_session cfg base days_span incl e g).1.sentiment.value ∈
      ["positive", "neutral", "negative"] ∧
    ∀ i : Fin (generate_session cfg base days_span incl e g).1.transcript.length,
      ((generate_session cfg base days_span incl e g).1.transcript.get i).role ∈
          roleMembers ∧
        ((generate_session cfg base days_span incl e g).1.transcript.get i).role.value ∈
          ["User", "Assistant"] := by
  have hcat : ∀ c : Category, c.value ∈
      ["Technical Support", "Billing", "Account Management",
       "Product Information", "General Inquiry", "Feature Request",
       "Bug Report", "Onboarding", "Unrecognized / Other"] := by
    intro c; cases c <;> decide
  have hsen : ∀ sv : Sentiment, sv.value ∈ ["positive", "neutral", "negative"] := by
    intro sv; cases sv <;> decide
  have hrole : ∀ rv : Role, rv.value ∈ ["User", "Assistant"] := by
    intro rv; cases rv <;> decide
  refine ⟨choice_mem _ _ (by decide), hcat _, choice_mem _ _ (by decide), hsen _,
    fun i => ⟨?_, hrole _⟩⟩
  exact generate_entries_roles cfg base days_span _ _ _ (List.get_mem _ i.1 i.2)

/-- C3: the session's `start_time` and `end_time` are the two independently
drawn timestamps put in order by the swap of lines 337-338, so
`start_time <= end_time` holds in the lexicographic string order (also at
the character-list level). -/
theorem c3_start_le_end (cfg : DataConfig) (base days_span : Nat)
    (incl : Bool) (e : Entropy) (g : RandGen) :
    (generate_session cfg base days_span incl e g).1.start_time ≤
      (generate_session cfg base days_span incl e g).1.end_time ∧
    (generate_session cfg base days_span incl e g).1.start_time.toList ≤
      (generate_session cfg base days_span incl e g).1.end_time.toList ∧
    (generate_session cfg base days_span incl e g).1.start_time =
      minStr (generate_timestamp base days_span g).1
        (generate_timestamp base days_span (generate_timestamp base days_span g).2).1 ∧
    (generate_session cfg base days_span incl e g).1.end_time =
      maxStr (generate_timestamp base days_span g).1
        (generate_timestamp base days_span (generate_timestamp base days_span g).2).1 := by
  refine ⟨minStr_le_maxStr _ _, ?_, rfl, rfl⟩
  exact String.le_iff_toList_le.mp (minStr_le_maxStr _ _)

/-- C5: `questions` is drawn by `random.sample` from the fixed fifteen-entry
question list, `randint(2, min(5, 15))` many of them, so it has between 2
and 5 entries and no duplicates. -/
theorem c5_questions_sampled (base days_span : Nat) (incl : Bool)
    (e : Entropy) (g : RandGen) :
    2 ≤ (generate_session defaultConfig base days_span incl e g).1.questions.length ∧
    (generate_session defaultConfig base days_span incl e g).1.questions.length ≤ 5 ∧
    (generate_session defaultConfig base days_span incl e g).1.questions.Nodup := by
  obtain ⟨G, hG⟩ : ∃ G : RandGen,
      (generate_session defaultConfig base days_span incl e g).1.questions =
        (sample defaultConfig.questions
          (randint 2 (min 5 defaultConfig.questions.length) G).1
          (randint 2 (min 5 defaultConfig.questions.length) G).2).1 := ⟨_, rfl⟩
  have hmin : min 5 defaultConfig.questions.length = 5 := rfl
  have h2 : 2 ≤ (randint 2 (min 5 defaultConfig.questions.length) G).1 :=
    randint_lower _ _ _
  have h5 : (randint 2 (min 5 defaultConfig.questions.length) G).1 ≤ 5 := by
    have h := randint_upper 2 (min 5 defaultConfig.questions.length) G
      (by rw [hmin]; omega)
    omega
  have hk : (randint 2 (min 5 defaultConfig.questions.length) G).1 ≤
      defaultConfig.questions.length := by
    have h15 : defaultConfig.questions.length = 15 := rfl
    omega
  have hlen := sample_length
    (randint 2 (min 5 defaultConfig.questions.length) G).1
    defaultConfig.questions
    (randint 2 (min 5 defaultConfig.questions.length) G).2 hk
  have hnodup : defaultConfig.questions.Nodup := by decide
  rw [hG, hlen]
  exact ⟨h2, h5, sample_nodup _ _ _ hnodup⟩

/-- C10: `messages.amount` holds two independent draws, the user count
uniform on `[1, 10]` and the total uniform on `[3, 20]`; no relation
between them is maintained — a stream drawing 9 at the user position
produces a user count of 10 against a total of 3. -/
theorem c10_amount_unrelated :
    (∀ (cfg : DataConfig) (base days_span : Nat) (incl : Bool) (e : Entropy)
        (g : RandGen),
      1 ≤ (generate_session cfg base days_span incl e g).1.messages.amount.user ∧
      (generate_session cfg base days_span incl e g).1.messages.amount.user ≤ 10 ∧
      3 ≤ (generate_session cfg base days_span incl e g).1.messages.amount.total ∧
      (generate_session cfg base days_span incl e g).1.messages.amount.total ≤ 20) ∧
    (generate_session defaultConfig 0 0 true zeroEntropy userOverTotalGen).1.messages.amount.total <
      (generate_session defaultConfig 0 0 true zeroEntropy userOverTotalGen).1.messages.amount.user := by
  constructor
  · intro cfg base days_span incl e g
    obtain ⟨Gu, hu⟩ : ∃ G : RandGen,
        (generate_session cfg base days_span incl e g).1.messages.amount.user =
          (randint 1 10 G).1 := ⟨_, rfl⟩
    obtain ⟨Gt, ht⟩ : ∃ G : RandGen,
        (generate_session cfg base days_span incl e g).1.messages.amount.total =
          (randint 3 20 G).1 := ⟨_, rfl⟩
    rw [hu, ht]
    exact ⟨randint_lower _ _ _, randint_upper _ _ _ (by omega),
      randint_lower _ _ _, randint_upper _ _ _ (by omega)⟩
  · decide

/-- C4: with rating generation disabled the session carries no rating and
the serialized record has no `user_rating` key; with it enabled the rating
is a Bernoulli draw (`random.random() < 0.8`) and, when present, takes a
value in `{1, 2, 3, 4, 4.5, 5}`; an unset rating is omitted from the
serialized record (the key is absent, not `null`), and every record of a
`--no-rating` run lacks the key. -/
theorem c4_user_rating (cfg : DataConfig) (base days_span : Nat)
    (incl : Bool) (e : Entropy) (g : RandGen) :
    (incl = false →
      (generate_session cfg base days_span incl e g).1.user_rating = none) ∧
    (∀ r : ℚ, (generate_session cfg base days_span incl e g).1.user_rating = some r →
      r ∈ ratingChoices) ∧
    ((generate_session cfg base days_span incl e g).1.user_rating = none →
      "user_rating" ∉
        recordKeys (modelDump (generate_session cfg base days_span incl e g).1)) ∧
    (∀ r : ℚ, (generate_session cfg base days_span incl e g).1.user_rating = some r →
      "user_rating" ∈
        recordKeys (modelDump (generate_session cfg base days_span incl e g).1)) ∧
    (∃ G : RandGen, (generate_session cfg base days_span incl e g).1.user_rating =
      (genRating incl G).1) ∧
    (∀ G : RandGen, ((genRating true G).1 ≠ none ↔ (random_random G).1 < 4 / 5)) ∧
    (∀ (n : Nat) (e2 : Entropy) (g2 : RandGen) (s2 : Session),
      s2 ∈ (generate_sessions cfg base days_span false n e2 g2).1 →
      s2.user_rating = none ∧ "user_rating" ∉ recordKeys (modelDump s2)) := by
  obtain ⟨G, hG⟩ : ∃ G : RandGen,
      (generate_session cfg base days_span incl e g).1.user_rating =
        (genRating incl G).1 := ⟨_, rfl⟩
  refine ⟨?_, ?_, ?_, ?_, ⟨G, hG⟩, genRating_some_iff, ?_⟩
  · intro h
    subst h
    exact session_rating_off cfg base days_span e g
  · intro r hr
    rw [hG] at hr
    exact genRating_mem _ _ _ hr
  · intro h
    exact recordKeys_user_rating_none _ h
  · intro r hr
    exact recordKeys_user_rating_some _ r hr
  · intro n e2 g2 s2 hs2
    have hnone := generate_sessions_rating_off cfg base days_span n e2 g2 s2 hs2
    exact ⟨hnone, recordKeys_user_rating_none _ hnone⟩

/-- C4 witness: a `--no-rating` generation carries no rating and its
serialized record has no `user_rating` key. -/
theorem c4_user_rating_witness :
    (generate_session defaultConfig 0 0 false zeroEntropy zeroGen).1.user_rating =
      none ∧
    "user_rating" ∉ recordKeys
      (modelDump (generate_session defaultConfig 0 0 false zeroEntropy zeroGen).1) :=
  ⟨(c4_user_rating defaultConfig 0 0 false zeroEntropy zeroGen).1 rfl,
   (c4_user_rating defaultConfig 0 0 false zeroEntropy zeroGen).2.2.1
     ((c4_user_rating defaultConfig 0 0 false zeroEntropy zeroGen).1 rfl)⟩

/-- C1: seeding fixes the `random` stream but not `os.urandom`, which
`uuid.uuid4()` reads at line 332.  Two runs with identical arguments and the
identical seeded stream (`zeroGen`) but different system entropy produce
different `session_id`s and byte-different output files, refuting the
byte-identical-output determinism claim. -/
theorem c1_seeded_runs_can_differ :
    outputContent oneSessionArgs 0 zeroEntropy zeroGen ≠
      outputContent oneSessionArgs 0 maxEntropy zeroGen ∧
    (generate_session defaultConfig 0 0 true zeroEntropy zeroGen).1.session_id ≠
      (generate_session defaultConfig 0 0 true maxEntropy zeroGen).1.session_id := by
  constructor
  · decide
  · decide

/-- C6 counterexample: with `--jsonl` and `n = 0` the output content is a
single bare newline — one (empty, unparsable) newline-terminated line, not
the zero lines the claim demands (`linesJoin []`, the empty content, is the
only zero-line content). -/
theorem c6_jsonl_zero_lines_counterexample :
    outputContent jsonlZeroArgs 0 zeroEntropy zeroGen = "\n" ∧
    outputContent jsonlZeroArgs 0 zeroEntropy zeroGen ≠ linesJoin [] := by
  constructor
  · rfl
  · decide

/-- C6 (amended to runs generating at least one session): with `--jsonl`,
the output is exactly `n` newline-terminated lines — the final one included
— each line the compact serialization of one generated session (a JSON
object), containing no raw newline, and the content does not depend on
`--pretty` or `--indent`. -/
theorem c6_jsonl_lines (args : Args) (base : Nat) (e : Entropy) (g : RandGen)
    (hj : args.jsonl = true) (hn : 1 ≤ args.num) :
    ∃ ls : List String,
      outputContent args base e g = linesJoin ls ∧
      ls.length = args.num ∧
      (∀ (p : Bool) (i2 : Nat),
        outputContent { args with pretty := p, indent := i2 } base e g = linesJoin ls) ∧
      ls = (generate_sessions defaultConfig base args.days (!args.no_rating)
              args.num e g).1.map (fun s => dumps (modelDump s)) ∧
      (∀ l ∈ ls, nlFree l) ∧
      (∀ l ∈ ls, ∃ kvs, l = dumps (Json.jobj kvs)) := by
  have hlen : (generate_sessions defaultConfig base args.days (!args.no_rating)
      args.num e g).1.length = args.num :=
    generate_sessions_length _ _ _ _ _ _ _
  have key : ∀ a2 : Args, a2.jsonl = true → a2.num = args.num →
      a2.days = args.days → a2.no_rating = args.no_rating →
      outputContent a2 base e g =
        linesJoin ((generate_sessions defaultConfig base args.days (!args.no_rating)
          args.num e g).1.map (fun s => dumps (modelDump s))) := by
    intro a2 hj2 hnum hdays hnr
    rw [outputContent, hj2, hnum, hdays, hnr]
    simp only [if_true, List.map_map]
    rcases hcons : (generate_sessions defaultConfig base args.days (!args.no_rating)
        args.num e g).1.map (dumps ∘ modelDump) with _ | ⟨l, ls⟩
    · exfalso
      have : args.num = 0 := by
        have h0 := congrArg List.length hcons
        simp only [List.length_map, hlen] at h0
        simpa using h0
      omega
    · rw [show ((fun s => dumps (modelDump s)) : Session → String) =
        dumps ∘ modelDump from rfl, hcons]
      exact joinSep_nl_linesJoin l ls
  refine ⟨_, key args hj rfl rfl rfl, by simp [hlen], fun p i2 => key _ hj rfl rfl rfl,
    rfl, ?_, ?_⟩
  · intro l hl
    rcases List.mem_map.mp hl with ⟨s, _, rfl⟩
    exact dumps_nl _
  · intro l hl
    rcases List.mem_map.mp hl with ⟨s, _, rfl⟩
    exact ⟨_, rfl⟩

/-- C6 witness: the amended statement applied to a concrete
`--jsonl -n 1 --no-rating` run. -/
theorem c6_jsonl_lines_witness :
    jsonlOneArgs.jsonl = true ∧ 1 ≤ jsonlOneArgs.num ∧
    ∃ ls : List String,
      outputContent jsonlOneArgs 0 zeroEntropy zeroGen = linesJoin ls ∧
      ls.length = jsonlOneArgs.num ∧
      (∀ (p : Bool) (i2 : Nat),
        outputContent { jsonlOneArgs with pretty := p, indent := i2 } 0 zeroEntropy
          zeroGen = linesJoin ls) ∧
      ls = (generate_sessions defaultConfig 0 jsonlOneArgs.days (!jsonlOneArgs.no_rating)
              jsonlOneArgs.num zeroEntropy zeroGen).1.map (fun s => dumps (modelDump s)) ∧
      (∀ l ∈ ls, nlFree l) ∧
      (∀ l ∈ ls, ∃ kvs, l = dumps (Json.jobj kvs)) :=
  ⟨rfl, by decide, c6_jsonl_lines jsonlOneArgs 0 zeroEntropy zeroGen rfl (by decide)⟩

/-- C7: when validation is not skipped, a schema fetch/load failure is
downgraded to a warning with exit status 0; a loaded schema with a
non-empty violation list logs every violation and exits 1; an empty list
logs the success indicator and exits 0. -/
theorem c7_validation_exit_codes (fetch : Except FetchErr Json)
    (validate : Json → List String) :
    (∀ ex : FetchErr, fetch = .error ex →
      validationStep false fetch validate = (["Could not validate: " ++ ex.msg], 0)) ∧
    (∀ schema : Json, fetch = .ok schema → validate schema ≠ [] →
      (validationStep false fetch validate).2 = 1 ∧
      (validationStep false fetch validate).1 =
        "Schema validation failed:" :: (validate schema).map (fun er => "  - " ++ er)) ∧
    (∀ schema : Json, fetch = .ok schema → validate schema = [] →
      validationStep false fetch validate = (["✅ Schema validation passed"], 0)) := by
  refine ⟨?_, ?_, ?_⟩
  · rintro ex rfl
    rfl
  · rintro schema rfl hne
    rw [validationStep]
    simp only [Bool.false_eq_true, if_false]
    rw [if_neg hne]
    exact ⟨rfl, rfl⟩
  · rintro schema rfl he
    rw [validationStep]
    simp only [Bool.false_eq_true, if_false]
    rw [if_pos he]

/-- C7 witness: the three branches at concrete inputs. -/
theorem c7_validation_exit_codes_witness :
    validationStep false (.error (.valueErr "boom")) (fun _ => []) =
      (["Could not validate: boom"], 0) ∧
    (validationStep false (.ok .null) (fun _ => ["bad"])).2 = 1 ∧
    validationStep false (.ok .null) (fun _ => []) =
      (["✅ Schema validation passed"], 0) :=
  ⟨(c7_validation_exit_codes _ _).1 _ rfl,
   ((c7_validation_exit_codes _ _).2.1 _ rfl (by decide)).1,
   (c7_validation_exit_codes _ _).2.2 _ rfl rfl⟩

/-- C8: `fetch_schema` on an `http://`/`https://` source whose fetch fails
raises the wrapped `ValueError`; on a non-URL source naming no existing
file it raises `FileNotFoundError`; the two exceptions are distinct and in
neither case does it return normally (so a missing schema is never an empty
violation list). -/
theorem c8_fetch_schema_failures (env : FetchEnv) (p : String) :
    ((strStartsWith p "http://" = true ∨ strStartsWith p "https://" = true) →
      ∀ er : String, env.http p = .error er →
        fetch_schema env p =
          .error (.valueErr ("Failed to fetch schema: " ++ er)) ∧
        ∀ j : Json, fetch_schema env p ≠ .ok j) ∧
    (strStartsWith p "http://" = false → strStartsWith p "https://" = false →
      env.fileExists p = false →
        fetch_schema env p =
          .error (.fileNotFound ("Schema file not found: " ++ p)) ∧
        ∀ j : Json, fetch_schema env p ≠ .ok j) ∧
    (∀ m m2 : String, FetchErr.valueErr m ≠ FetchErr.fileNotFound m2) := by
  refine ⟨?_, ?_, fun m m2 h => FetchErr.noConfusion h⟩
  · intro hs er he
    have heq : fetch_schema env p =
        .error (.valueErr ("Failed to fetch schema: " ++ er)) := by
      rw [fetch_schema]
      have hcond : (strStartsWith p "http://" || strStartsWith p "https://") = true := by
        rcases hs with h | h <;> simp [h]
      rw [if_pos hcond, he]
    exact ⟨heq, fun j hj => Except.noConfusion (heq.symm.trans hj)⟩
  · intro h1 h2 hex
    have heq : fetch_schema env p =
        .error (.fileNotFound ("Schema file not found: " ++ p)) := by
      rw [fetch_schema]
      have hcond : ¬((strStartsWith p "http://" || strStartsWith p "https://") = true) := by
        simp [h1, h2]
      rw [if_neg hcond, if_neg (by simp [hex])]
    exact ⟨heq, fun j hj => Except.noConfusion (heq.symm.trans hj)⟩

/-- C8 witness: a timed-out URL fetch and a missing local file. -/
theorem c8_fetch_schema_failures_witness :
    fetch_schema deadEnv "https://example.com/schema.json" =
      .error (.valueErr "Failed to fetch schema: timeout") ∧
    fetch_schema deadEnv "missing.json" =
      .error (.fileNotFound "Schema file not found: missing.json") :=
  ⟨((c8_fetch_schema_failures deadEnv _).1 (Or.inr (by decide)) _ rfl).1,
   ((c8_fetch_schema_failures deadEnv _).2.1 (by decide) (by decide) rfl).1⟩

/-- C9: `out.parent.mkdir(parents=True, exist_ok=True)` leaves the output
path's parent directory existing — with every ancestor — and keeps every
pre-existing directory, so it never fails on one; hence a fresh output
directory is not a write failure. -/
theorem c9_mkdir_parents_ok (dirs : List (List String)) (out : List String) :
    parentDir out ∈ mkdirParents dirs (parentDir out) ∧
    (∀ q : List String, q <+: parentDir out →
      q ∈ mkdirParents dirs (parentDir out)) ∧
    (∀ d ∈ dirs, d ∈ mkdirParents dirs (parentDir out)) := by
  refine ⟨?_, ?_, ?_⟩
  · exact List.mem_append.mpr
      (Or.inr ((List.mem_inits _ _).mpr ⟨[], List.append_nil _⟩))
  · intro q hq
    exact List.mem_append.mpr (Or.inr ((List.mem_inits _ _).mpr hq))
  · intro d hd
    exact List.mem_append.mpr (Or.inl hd)

/-- C9 witness: an output path two levels below an existing directory. -/
theorem c9_mkdir_parents_ok_witness :
    parentDir ["data", "sub", "out.json"] ∈
      mkdirParents [["data"]] (parentDir ["data", "sub", "out.json"]) ∧
    ["data"] ∈ mkdirParents [["data"]] (parentDir ["data", "sub", "out.json"]) ∧
    ([] : List String) ∈
      mkdirParents [["data"]] (parentDir ["data", "sub", "out.json"]) :=
  ⟨(c9_mkdir_parents_ok _ _).1,
   (c9_mkdir_parents_ok [["data"]] ["data", "sub", "out.json"]).2.2 ["data"]
     (by decide),
   (c9_mkdir_parents_ok [["data"]] ["data", "sub", "out.json"]).2.1 []
     ⟨["data", "sub"], rfl⟩⟩

end SampleGen
